import Mathlib

/-!
Verification of the library-state and comment-tree engine of a client-side
comic reader (source files `src/types.ts` and `src/App.tsx`).

The TypeScript source is shallowly embedded: JS numbers that only ever hold
integral values (timestamps, counters, experience) become `Int`; optional
fields (`field?:`) become `Option`; JS arrays become `List`; the recursive
`Comment` record becomes a nested inductive type.  Functions are translated
clause by clause from the source; where the source mutates data in place
(`addReplyRecursively`) the embedding gives the post-state of the mutated
object graph, and the aliasing consequences for callers are derived in
separate, documented definitions.
-/

/-- `RankSystem` from `src/types.ts`: `'NONE' | 'CULTIVATION' | 'GALAXY' | 'GAME' | 'DEMON' | 'MAGE'`. -/
inductive RankSystem : Type where
  | NONE | CULTIVATION | GALAXY | GAME | DEMON | MAGE
deriving DecidableEq, Repr

/-- `Comment` interface from `src/types.ts`.  Fields in source order:
`id`, `userId`, `username`, `userAvatar`, `userTitle?`, `userRankSystem?`,
`content`, `replies?: Comment[]`, `likes?: string[]`, `createdAt`.
A nested inductive because replies are recursively comments. -/
inductive Comment : Type where
  | mk (id userId username userAvatar : String)
       (userTitle : Option String) (userRankSystem : Option RankSystem)
       (content : String)
       (replies : Option (List Comment))
       (likes : Option (List String))
       (createdAt : Int)

/-- Field accessor for `Comment.id`. -/
def Comment.id : Comment → String
  | .mk i _ _ _ _ _ _ _ _ _ => i

/-- Field accessor for `Comment.replies`. -/
def Comment.replies : Comment → Option (List Comment)
  | .mk _ _ _ _ _ _ _ r _ _ => r

/-- Field accessor for `Comment.likes`. -/
def Comment.likes : Comment → Option (List String)
  | .mk _ _ _ _ _ _ _ _ l _ => l

/-- `ReadingProgress` interface from `src/types.ts`. -/
structure ReadingProgress : Type where
  chapterId : String
  chapterTitle : String
  pageIndex : Int
  timestamp : Int
deriving DecidableEq, Repr

/-- `Chapter` interface from `src/types.ts`. -/
structure Chapter : Type where
  id : String
  title : String
  pages : List String
  comments : List Comment
  viewCount : Option Int
  createdAt : Int

/-- `Rating` interface from `src/types.ts`. -/
structure Rating : Type where
  userId : String
  score : Int
deriving DecidableEq, Repr

/-- `status` field of `Comic`: `'ONGOING' | 'COMPLETED'`. -/
inductive ComicStatus : Type where
  | ONGOING | COMPLETED
deriving DecidableEq, Repr

/-- `Comic` interface from `src/types.ts`. -/
structure Comic : Type where
  id : String
  title : String
  author : String
  description : String
  tags : List String
  coverImage : String
  chapters : List Chapter
  comments : List Comment
  ratings : List Rating
  status : ComicStatus
  viewCount : Option Int
  lastRead : Option ReadingProgress
  createdAt : Int
  updatedAt : Int

/-- `role` field of `User`: `'ADMIN' | 'USER'`. -/
inductive Role : Type where
  | ADMIN | USER
deriving DecidableEq, Repr

/-- `User` interface from `src/types.ts`. -/
structure User : Type where
  id : String
  username : String
  password : Option String
  email : String
  avatar : Option String
  role : Role
  exp : Option Int
  rankSystem : Option RankSystem
  followedComics : Option (List String)

/-!
## Rank Engine (`src/types.ts` lines 83-107)
-/

/-- `RANK_TITLES` from `src/types.ts`: the per-system rank title tables. -/
def RANK_TITLES : RankSystem → List String
  | .NONE => []
  | .CULTIVATION => ["Phàm Nhân", "Luyện Khí", "Trúc Cơ", "Kim Đan", "Nguyên Anh",
      "Hóa Thần", "Luyện Hư", "Hợp Thể", "Đại Thừa", "Độ Kiếp"]
  | .GALAXY => ["Người Thường", "Học Đồ", "Hành Tinh", "Hằng Tinh", "Vũ Trụ",
      "Vực Chủ", "Giới Chủ", "Bất Hủ", "Tôn Giả", "Chi Chủ"]
  | .GAME => ["Tập Sự", "Đồng", "Bạc", "Vàng", "Bạch Kim",
      "Kim Cương", "Tinh Anh", "Cao Thủ", "Thách Đấu", "Huyền Thoại"]
  | .DEMON => ["Linh Hồn", "Tiểu Quỷ", "Ác Quỷ", "Quỷ Tướng", "Quỷ Soái",
      "Quỷ Vương", "Đại Quỷ Vương", "Ma Thần", "Chúa Tể", "Hư Vô"]
  | .MAGE => ["Người Thường", "Học Việc", "Pháp Sư", "Đại Pháp Sư", "Ma Đạo Sư",
      "Đại Ma Đạo Sư", "Thánh Pháp Sư", "Pháp Thần", "Chân Lý", "Đấng Sáng Tạo"]

/-- `EXP_THRESHOLDS` from `src/types.ts` line 92. -/
def EXP_THRESHOLDS : List Int := [0, 100, 300, 600, 1000, 1500, 2100, 2800, 3600, 4500]

/-- The descending `for` loop of `getUserRank` (`src/types.ts` lines 97-103):
`level` starts at 0; the loop scans `i` from the given start index down to 0
and breaks at the first `i` with `exp ≥ EXP_THRESHOLDS[i]`.  Reaching `i = 0`
leaves `level = 0` whether or not the test succeeds there. -/
def rankLevelLoop (exp : Int) : Nat → Nat
  | 0 => 0
  | i + 1 => if EXP_THRESHOLDS.getD (i + 1) 0 ≤ exp then i + 1 else rankLevelLoop exp i

/-- `getUserRank` from `src/types.ts` lines 94-107.  The JS `titles[level] ||
'Cấp (level+1)'` fallback fires when the indexed entry is missing or the empty
string. -/
def getUserRank (exp : Int) (system : RankSystem) : String :=
  if system = RankSystem.NONE then ""
  else
    let level := rankLevelLoop exp 9
    let titles := RANK_TITLES system
    match titles.get? level with
    | some t => if t = "" then "Cấp " ++ toString (level + 1) else t
    | none => "Cấp " ++ toString (level + 1)

/-- Follows the spec's words for the Rank Engine contract (§4.1): the highest
index `i` such that `exp ≥ threshold[i]`, over the fixed threshold table; used
to compare the source's descending loop against the specified selection rule. -/
def specRankLevel (exp : Int) : Nat :=
  (List.range EXP_THRESHOLDS.length).foldl
    (fun acc i => if EXP_THRESHOLDS.getD i 0 ≤ exp then i else acc) 0


/-!
## Text Normalizer (`src/App.tsx` lines 25-30)

`removeAccents` is
`str.normalize('NFD').replace(/[\u0300-\u036f]/g, '').replace(/đ/g, 'd').replace(/Đ/g, 'D').toLowerCase()`.
`String.prototype.normalize('NFD')` and `toLowerCase` are host (Unicode)
primitives; they are embedded here restricted to the character repertoire the
application works with: the precomposed Vietnamese Latin letters and ASCII.
Characters outside the tables are left unchanged, matching Unicode behaviour
on the repertoire (every character reached by the pipeline on this repertoire
is covered by the tables).
-/

/-- Canonical (NFD) decompositions, in canonical order, of the precomposed
Vietnamese Latin letters (generated from the Unicode character database).
Every decomposition is an ASCII base letter followed by combining marks in
U+0300-U+036F. -/
def nfdTable : List (Char × List Char) := [
  ('\u00C0', ['A', '\u0300']),
  ('\u00C1', ['A', '\u0301']),
  ('\u00C2', ['A', '\u0302']),
  ('\u00C3', ['A', '\u0303']),
  ('\u00C8', ['E', '\u0300']),
  ('\u00C9', ['E', '\u0301']),
  ('\u00CA', ['E', '\u0302']),
  ('\u00CC', ['I', '\u0300']),
  ('\u00CD', ['I', '\u0301']),
  ('\u00D2', ['O', '\u0300']),
  ('\u00D3', ['O', '\u0301']),
  ('\u00D4', ['O', '\u0302']),
  ('\u00D5', ['O', '\u0303']),
  ('\u00D9', ['U', '\u0300']),
  ('\u00DA', ['U', '\u0301']),
  ('\u00DD', ['Y', '\u0301']),
  ('\u00E0', ['a', '\u0300']),
  ('\u00E1', ['a', '\u0301']),
  ('\u00E2', ['a', '\u0302']),
  ('\u00E3', ['a', '\u0303']),
  ('\u00E8', ['e', '\u0300']),
  ('\u00E9', ['e', '\u0301']),
  ('\u00EA', ['e', '\u0302']),
  ('\u00EC', ['i', '\u0300']),
  ('\u00ED', ['i', '\u0301']),
  ('\u00F2', ['o', '\u0300']),
  ('\u00F3', ['o', '\u0301']),
  ('\u00F4', ['o', '\u0302']),
  ('\u00F5', ['o', '\u0303']),
  ('\u00F9', ['u', '\u0300']),
  ('\u00FA', ['u', '\u0301']),
  ('\u00FD', ['y', '\u0301']),
  ('\u0102', ['A', '\u0306']),
  ('\u0103', ['a', '\u0306']),
  ('\u0128', ['I', '\u0303']),
  ('\u0129', ['i', '\u0303']),
  ('\u0168', ['U', '\u0303']),
  ('\u0169', ['u', '\u0303']),
  ('\u01A0', ['O', '\u031B']),
  ('\u01A1', ['o', '\u031B']),
  ('\u01AF', ['U', '\u031B']),
  ('\u01B0', ['u', '\u031B']),
  ('\u1EA0', ['A', '\u0323']),
  ('\u1EA1', ['a', '\u0323']),
  ('\u1EA2', ['A', '\u0309']),
  ('\u1EA3', ['a', '\u0309']),
  ('\u1EA4', ['A', '\u0302', '\u0301']),
  ('\u1EA5', ['a', '\u0302', '\u0301']),
  ('\u1EA6', ['A', '\u0302', '\u0300']),
  ('\u1EA7', ['a', '\u0302', '\u0300']),
  ('\u1EA8', ['A', '\u0302', '\u0309']),
  ('\u1EA9', ['a', '\u0302', '\u0309']),
  ('\u1EAA', ['A', '\u0302', '\u0303']),
  ('\u1EAB', ['a', '\u0302', '\u0303']),
  ('\u1EAC', ['A', '\u0323', '\u0302']),
  ('\u1EAD', ['a', '\u0323', '\u0302']),
  ('\u1EAE', ['A', '\u0306', '\u0301']),
  ('\u1EAF', ['a', '\u0306', '\u0301']),
  ('\u1EB0', ['A', '\u0306', '\u0300']),
  ('\u1EB1', ['a', '\u0306', '\u0300']),
  ('\u1EB2', ['A', '\u0306', '\u0309']),
  ('\u1EB3', ['a', '\u0306', '\u0309']),
  ('\u1EB4', ['A', '\u0306', '\u0303']),
  ('\u1EB5', ['a', '\u0306', '\u0303']),
  ('\u1EB6', ['A', '\u0323', '\u0306']),
  ('\u1EB7', ['a', '\u0323', '\u0306']),
  ('\u1EB8', ['E', '\u0323']),
  ('\u1EB9', ['e', '\u0323']),
  ('\u1EBA', ['E', '\u0309']),
  ('\u1EBB', ['e', '\u0309']),
  ('\u1EBC', ['E', '\u0303']),
  ('\u1EBD', ['e', '\u0303']),
  ('\u1EBE', ['E', '\u0302', '\u0301']),
  ('\u1EBF', ['e', '\u0302', '\u0301']),
  ('\u1EC0', ['E', '\u0302', '\u0300']),
  ('\u1EC1', ['e', '\u0302', '\u0300']),
  ('\u1EC2', ['E', '\u0302', '\u0309']),
  ('\u1EC3', ['e', '\u0302', '\u0309']),
  ('\u1EC4', ['E', '\u0302', '\u0303']),
  ('\u1EC5', ['e', '\u0302', '\u0303']),
  ('\u1EC6', ['E', '\u0323', '\u0302']),
  ('\u1EC7', ['e', '\u0323', '\u0302']),
  ('\u1EC8', ['I', '\u0309']),
  ('\u1EC9', ['i', '\u0309']),
  ('\u1ECA', ['I', '\u0323']),
  ('\u1ECB', ['i', '\u0323']),
  ('\u1ECC', ['O', '\u0323']),
  ('\u1ECD', ['o', '\u0323']),
  ('\u1ECE', ['O', '\u0309']),
  ('\u1ECF', ['o', '\u0309']),
  ('\u1ED0', ['O', '\u0302', '\u0301']),
  ('\u1ED1', ['o', '\u0302', '\u0301']),
  ('\u1ED2', ['O', '\u0302', '\u0300']),
  ('\u1ED3', ['o', '\u0302', '\u0300']),
  ('\u1ED4', ['O', '\u0302', '\u0309']),
  ('\u1ED5', ['o', '\u0302', '\u0309']),
  ('\u1ED6', ['O', '\u0302', '\u0303']),
  ('\u1ED7', ['o', '\u0302', '\u0303']),
  ('\u1ED8', ['O', '\u0323', '\u0302']),
  ('\u1ED9', ['o', '\u0323', '\u0302']),
  ('\u1EDA', ['O', '\u031B', '\u0301']),
  ('\u1EDB', ['o', '\u031B', '\u0301']),
  ('\u1EDC', ['O', '\u031B', '\u0300']),
  ('\u1EDD', ['o', '\u031B', '\u0300']),
  ('\u1EDE', ['O', '\u031B', '\u0309']),
  ('\u1EDF', ['o', '\u031B', '\u0309']),
  ('\u1EE0', ['O', '\u031B', '\u0303']),
  ('\u1EE1', ['o', '\u031B', '\u0303']),
  ('\u1EE2', ['O', '\u031B', '\u0323']),
  ('\u1EE3', ['o', '\u031B', '\u0323']),
  ('\u1EE4', ['U', '\u0323']),
  ('\u1EE5', ['u', '\u0323']),
  ('\u1EE6', ['U', '\u0309']),
  ('\u1EE7', ['u', '\u0309']),
  ('\u1EE8', ['U', '\u031B', '\u0301']),
  ('\u1EE9', ['u', '\u031B', '\u0301']),
  ('\u1EEA', ['U', '\u031B', '\u0300']),
  ('\u1EEB', ['u', '\u031B', '\u0300']),
  ('\u1EEC', ['U', '\u031B', '\u0309']),
  ('\u1EED', ['u', '\u031B', '\u0309']),
  ('\u1EEE', ['U', '\u031B', '\u0303']),
  ('\u1EEF', ['u', '\u031B', '\u0303']),
  ('\u1EF0', ['U', '\u031B', '\u0323']),
  ('\u1EF1', ['u', '\u031B', '\u0323']),
  ('\u1EF2', ['Y', '\u0300']),
  ('\u1EF3', ['y', '\u0300']),
  ('\u1EF4', ['Y', '\u0323']),
  ('\u1EF5', ['y', '\u0323']),
  ('\u1EF6', ['Y', '\u0309']),
  ('\u1EF7', ['y', '\u0309']),
  ('\u1EF8', ['Y', '\u0303']),
  ('\u1EF9', ['y', '\u0303']),
]

/-- Per-character NFD: the table's decomposition, or the character itself. -/
def nfdChar (c : Char) : List Char :=
  match nfdTable.find? (fun p => p.1 == c) with
  | some p => p.2
  | none => [c]

/-- The combining diacritical marks block U+0300-U+036F matched by the regexp
`/[\u0300-\u036f]/` in `removeAccents`. -/
def isCombiningMark (c : Char) : Bool :=
  0x300 ≤ c.toNat && c.toNat ≤ 0x36F

/-- Simple lowercase mappings of `String.prototype.toLowerCase` restricted to
ASCII and the precomposed Vietnamese Latin letters. -/
def lowerTable : List (Char × Char) := [
  ('A', 'a'),
  ('B', 'b'),
  ('C', 'c'),
  ('D', 'd'),
  ('E', 'e'),
  ('F', 'f'),
  ('G', 'g'),
  ('H', 'h'),
  ('I', 'i'),
  ('J', 'j'),
  ('K', 'k'),
  ('L', 'l'),
  ('M', 'm'),
  ('N', 'n'),
  ('O', 'o'),
  ('P', 'p'),
  ('Q', 'q'),
  ('R', 'r'),
  ('S', 's'),
  ('T', 't'),
  ('U', 'u'),
  ('V', 'v'),
  ('W', 'w'),
  ('X', 'x'),
  ('Y', 'y'),
  ('Z', 'z'),
  ('\u00C0', '\u00E0'),
  ('\u00C1', '\u00E1'),
  ('\u00C2', '\u00E2'),
  ('\u00C3', '\u00E3'),
  ('\u00C8', '\u00E8'),
  ('\u00C9', '\u00E9'),
  ('\u00CA', '\u00EA'),
  ('\u00CC', '\u00EC'),
  ('\u00CD', '\u00ED'),
  ('\u00D2', '\u00F2'),
  ('\u00D3', '\u00F3'),
  ('\u00D4', '\u00F4'),
  ('\u00D5', '\u00F5'),
  ('\u00D9', '\u00F9'),
  ('\u00DA', '\u00FA'),
  ('\u00DD', '\u00FD'),
  ('\u0102', '\u0103'),
  ('\u0128', '\u0129'),
  ('\u0168', '\u0169'),
  ('\u01A0', '\u01A1'),
  ('\u01AF', '\u01B0'),
  ('\u1EA0', '\u1EA1'),
  ('\u1EA2', '\u1EA3'),
  ('\u1EA4', '\u1EA5'),
  ('\u1EA6', '\u1EA7'),
  ('\u1EA8', '\u1EA9'),
  ('\u1EAA', '\u1EAB'),
  ('\u1EAC', '\u1EAD'),
  ('\u1EAE', '\u1EAF'),
  ('\u1EB0', '\u1EB1'),
  ('\u1EB2', '\u1EB3'),
  ('\u1EB4', '\u1EB5'),
  ('\u1EB6', '\u1EB7'),
  ('\u1EB8', '\u1EB9'),
  ('\u1EBA', '\u1EBB'),
  ('\u1EBC', '\u1EBD'),
  ('\u1EBE', '\u1EBF'),
  ('\u1EC0', '\u1EC1'),
  ('\u1EC2', '\u1EC3'),
  ('\u1EC4', '\u1EC5'),
  ('\u1EC6', '\u1EC7'),
  ('\u1EC8', '\u1EC9'),
  ('\u1ECA', '\u1ECB'),
  ('\u1ECC', '\u1ECD'),
  ('\u1ECE', '\u1ECF'),
  ('\u1ED0', '\u1ED1'),
  ('\u1ED2', '\u1ED3'),
  ('\u1ED4', '\u1ED5'),
  ('\u1ED6', '\u1ED7'),
  ('\u1ED8', '\u1ED9'),
  ('\u1EDA', '\u1EDB'),
  ('\u1EDC', '\u1EDD'),
  ('\u1EDE', '\u1EDF'),
  ('\u1EE0', '\u1EE1'),
  ('\u1EE2', '\u1EE3'),
  ('\u1EE4', '\u1EE5'),
  ('\u1EE6', '\u1EE7'),
  ('\u1EE8', '\u1EE9'),
  ('\u1EEA', '\u1EEB'),
  ('\u1EEC', '\u1EED'),
  ('\u1EEE', '\u1EEF'),
  ('\u1EF0', '\u1EF1'),
  ('\u1EF2', '\u1EF3'),
  ('\u1EF4', '\u1EF5'),
  ('\u1EF6', '\u1EF7'),
  ('\u1EF8', '\u1EF9'),
  ('\u0110', '\u0111'),
]

/-- Per-character `toLowerCase` over the modelled repertoire. -/
def toLowerChar (c : Char) : Char :=
  match lowerTable.find? (fun p => p.1 == c) with
  | some p => p.2
  | none => c

/-- The `.replace(/đ/g, 'd').replace(/Đ/g, 'D')` steps of `removeAccents`,
character-wise. -/
def replaceDChar (c : Char) : Char :=
  if c = 'đ' then 'd' else if c = 'Đ' then 'D' else c

/-- `removeAccents` from `src/App.tsx` lines 25-30: NFD-decompose, strip the
combining marks U+0300-U+036F, map đ/Đ to d/D, then lowercase. -/
def removeAccents (str : String) : String :=
  let decomposed := str.data.flatMap nfdChar
  let stripped := decomposed.filter (fun c => !(isCombiningMark c))
  let replaced := stripped.map replaceDChar
  String.mk (replaced.map toLowerChar)

/-- A character is pipeline-normal when every stage of `removeAccents` leaves
it unchanged: it has no decomposition, is not a combining mark, is neither đ
nor Đ, and is already lowercase under the modelled mapping. -/
def normalChar (c : Char) : Bool :=
  decide (nfdChar c = [c]) && !(isCombiningMark c) &&
    decide (c ≠ 'đ') && decide (c ≠ 'Đ') && decide (toLowerChar c = c)

/-!
## Comment Tree Engine (`src/App.tsx` lines 514-546, 548-580)
-/

mutual
/-- Post-state of `addReplyRecursively` (`src/App.tsx` lines 514-528).  The
source procedure walks the sibling list with a `for` loop, mutating the first
node whose `id` equals `parentId` in place (`comment.replies.push(newReply)`,
creating the array when absent) and returning whether a target was found; this
embedding returns the value held by the traversed node objects after the call,
paired with that boolean. -/
def addReplyRecursively (comments : List Comment) (parentId : String) (newReply : Comment) :
    List Comment × Bool :=
  match comments with
  | [] => ([], false)
  | c :: rest =>
    let r := addReplyNode c parentId newReply
    if r.2 then (r.1 :: rest, true)
    else
      let r' := addReplyRecursively rest parentId newReply
      (r.1 :: r'.1, r'.2)
termination_by sizeOf comments

/-- Post-state of one iteration of the `addReplyRecursively` loop body on a
single node: the `id` test, the push into `replies`, and the conditional
descent `if (comment.replies && comment.replies.length > 0)`. -/
def addReplyNode : Comment → String → Comment → Comment × Bool
  | .mk i u n a t s co replies likes d, parentId, newReply =>
    if i = parentId then
      (Comment.mk i u n a t s co (some (replies.getD [] ++ [newReply])) likes d, true)
    else
      match replies with
      | some rs =>
        if rs.length > 0 then
          let r := addReplyRecursively rs parentId newReply
          (Comment.mk i u n a t s co (some r.1) likes d, r.2)
        else (Comment.mk i u n a t s co replies likes d, false)
      | none => (Comment.mk i u n a t s co replies likes d, false)
termination_by c _ _ => sizeOf c
end

mutual
/-- `toggleLikeInComments` (`src/App.tsx` lines 531-546): functional
depth-first rewrite toggling `userId`'s membership in the `likes` of the node
matching `commentId`. -/
def toggleLikeInComments (comments : List Comment) (commentId userId : String) :
    List Comment :=
  match comments with
  | [] => []
  | c :: rest => toggleLikeNode c commentId userId :: toggleLikeInComments rest commentId userId
termination_by sizeOf comments

/-- The `comments.map` body of `toggleLikeInComments`: on the matching node,
remove `userId` from `likes` if present (`filter`), else append it; on a node
with a non-empty reply list, rebuild it with rewritten replies; otherwise
return the node unchanged. -/
def toggleLikeNode : Comment → String → String → Comment
  | .mk i u n a t s co replies likes d, commentId, userId =>
    if i = commentId then
      let currentLikes := likes.getD []
      let isLiked := currentLikes.contains userId
      let newLikes := if isLiked then currentLikes.filter (fun x => x ≠ userId)
                      else currentLikes ++ [userId]
      Comment.mk i u n a t s co replies (some newLikes) d
    else
      match replies with
      | some rs =>
        if rs.length > 0 then
          Comment.mk i u n a t s co (some (toggleLikeInComments rs commentId userId)) likes d
        else Comment.mk i u n a t s co replies likes d
      | none => Comment.mk i u n a t s co replies likes d
termination_by c _ _ => sizeOf c
end

/-- The comment-forest update performed by `handleAddChapterComment`
(`src/App.tsx` lines 564-570) as observed through `updatedComments`: with a
`parentId` the new comment is inserted by `addReplyRecursively` (silently
dropped when no node matches); without one it is appended at the top level. -/
def updatedChapterComments (comments : List Comment) (parentId : Option String)
    (newComment : Comment) : List Comment :=
  match parentId with
  | some pid => (addReplyRecursively comments pid newComment).1
  | none => comments ++ [newComment]

/-- The value held by the caller's original `selectedChapter.comments` array
after `handleAddChapterComment` returns.  The source copies only the top-level
array (`[...(selectedChapter.comments || [])]`), so the copy shares every
comment node with the original; `addReplyRecursively` mutates a shared node's
`replies` array in place, which the original forest therefore observes, while
a top-level `push` touches only the copy. -/
def callerCommentsAfterAdd (comments : List Comment) (parentId : Option String)
    (newComment : Comment) : List Comment :=
  match parentId with
  | some pid => (addReplyRecursively comments pid newComment).1
  | none => comments

mutual
/-- Total number of comment nodes in a forest (each node counts one, plus its
nested replies); vocabulary for the comment-count claims. -/
def countComments : List Comment → Nat
  | [] => 0
  | c :: rest => countComment c + countComments rest
termination_by l => sizeOf l

/-- Number of nodes in a single comment's subtree. -/
def countComment : Comment → Nat
  | .mk _ _ _ _ _ _ _ replies _ _ => 1 + countRepliesOpt replies
termination_by c => sizeOf c

/-- Number of nodes below an optional reply list. -/
def countRepliesOpt : Option (List Comment) → Nat
  | none => 0
  | some rs => countComments rs
termination_by o => sizeOf o
end

mutual
/-- Whether some node of the forest has the given id (at any depth);
vocabulary for stating the reply-insertion claims. -/
def containsId : List Comment → String → Bool
  | [], _ => false
  | c :: rest, pid => containsIdNode c pid || containsId rest pid
termination_by l => sizeOf l

/-- Whether the node or one of its descendants has the given id. -/
def containsIdNode : Comment → String → Bool
  | .mk i _ _ _ _ _ _ replies _ _, pid => i = pid || containsIdOpt replies pid
termination_by c => sizeOf c

/-- `containsId` through an optional reply list. -/
def containsIdOpt : Option (List Comment) → String → Bool
  | none, _ => false
  | some rs, pid => containsId rs pid
termination_by o => sizeOf o
end

mutual
/-- Spec-side reply insertion, following §4.4's words: a depth-first search
over the forest; on the first node whose `id = parentId`, append `newComment`
to that node's `replies` (creating the list if absent) and stop searching;
return whether a target was found. -/
def addReplySpec (comments : List Comment) (parentId : String) (newComment : Comment) :
    List Comment × Bool :=
  match comments with
  | [] => ([], false)
  | c :: rest =>
    let r := addReplySpecNode c parentId newComment
    if r.2 then (r.1 :: rest, true)
    else
      let r' := addReplySpec rest parentId newComment
      (c :: r'.1, r'.2)
termination_by sizeOf comments

/-- Spec-side insertion at a single node: append at the matching node, else
search the node's replies depth-first, leaving the node unchanged when the
target is not below it. -/
def addReplySpecNode : Comment → String → Comment → Comment × Bool
  | .mk i u n a t s co replies likes d, parentId, newComment =>
    if i = parentId then
      (Comment.mk i u n a t s co (some (replies.getD [] ++ [newComment])) likes d, true)
    else
      match replies with
      | some rs =>
        let r := addReplySpec rs parentId newComment
        if r.2 then (Comment.mk i u n a t s co (some r.1) likes d, true)
        else (Comment.mk i u n a t s co replies likes d, false)
      | none => (Comment.mk i u n a t s co replies likes d, false)
termination_by c _ _ => sizeOf c
end

/-!
## View Composer (`src/App.tsx` lines 21-22, 194-235)
-/

/-- `SortOption` from `src/App.tsx` line 21. -/
inductive SortOption : Type where
  | LATEST | VIEWS | AZ
deriving DecidableEq, Repr

/-- `SearchScope` from `src/App.tsx` line 22. -/
inductive SearchScope : Type where
  | ALL | TITLE | AUTHOR
deriving DecidableEq, Repr

/-- JS `String.prototype.includes`: substring containment. -/
def strIncludes (s sub : String) : Bool :=
  decide (sub.data <:+: s.data)

/-- The filter predicate of `filteredComics` (`src/App.tsx` lines 194-223): a
comic passes when it matches both the search predicate (over the selected
scope, with accent-insensitive containment; an empty normalized query matches
everything) and the category predicate. -/
def matchesFilter (user : Option User) (searchQuery : String) (searchScope : SearchScope)
    (selectedCategory : String) (comic : Comic) : Bool :=
  let normalizedQuery := removeAccents searchQuery
  let matchesSearch : Bool :=
    if normalizedQuery = "" then true
    else if searchScope = SearchScope.AUTHOR then
      strIncludes (removeAccents comic.author) normalizedQuery
    else if searchScope = SearchScope.TITLE then
      strIncludes (removeAccents comic.title) normalizedQuery
    else
      strIncludes (removeAccents comic.title) normalizedQuery
      || strIncludes (removeAccents comic.author) normalizedQuery
      || comic.tags.any (fun tag => strIncludes (removeAccents tag) normalizedQuery)
  let matchesCategory : Bool :=
    if selectedCategory = "Tất cả" then true
    else if selectedCategory = "Đang theo dõi" then
      match user with
      | some u => (u.followedComics.getD []).contains comic.id
      | none => false
    else if selectedCategory = "Lịch sử" then comic.lastRead.isSome
    else comic.tags.contains selectedCategory
  matchesSearch && matchesCategory

/-- `b.lastRead?.timestamp || 0`: the effective history timestamp of a comic,
0 when it carries no read marker. -/
def tsOf (c : Comic) : Int :=
  match c.lastRead with
  | some lr => lr.timestamp
  | none => 0

/-- The sort comparator of `filteredComics` (`src/App.tsx` lines 224-235).
`localeCompare` is the host's locale-aware string comparison, taken as a
parameter. -/
def comicComparator (selectedCategory : String) (sortOption : SortOption)
    (localeCompare : String → String → Int) (a b : Comic) : Int :=
  if selectedCategory = "Lịch sử" then tsOf b - tsOf a
  else if sortOption = SortOption.VIEWS then b.viewCount.getD 0 - a.viewCount.getD 0
  else if sortOption = SortOption.AZ then localeCompare a.title b.title
  else b.updatedAt - a.updatedAt

/-- Insertion step of a stable comparator sort: place `x` before the first
element `y` with `cmp x y ≤ 0`, so that an earlier element wins ties. -/
def insertSorted (cmp : Comic → Comic → Int) (x : Comic) : List Comic → List Comic
  | [] => [x]
  | y :: ys => if cmp x y ≤ 0 then x :: y :: ys else y :: insertSorted cmp x ys

/-- Stable comparator sort modelling `Array.prototype.sort` (ECMAScript
requires sort stability, and `filteredComics` relies on nothing more than the
comparator order and stability). -/
def stableSort (cmp : Comic → Comic → Int) : List Comic → List Comic
  | [] => []
  | x :: xs => insertSorted cmp x (stableSort cmp xs)

/-- `filteredComics` (`src/App.tsx` lines 194-235): filter the library by the
search and category predicates, then sort with the comparator. -/
def filteredComics (comics : List Comic) (searchQuery : String) (searchScope : SearchScope)
    (selectedCategory : String) (sortOption : SortOption) (user : Option User)
    (localeCompare : String → String → Int) : List Comic :=
  stableSort (comicComparator selectedCategory sortOption localeCompare)
    (comics.filter (matchesFilter user searchQuery searchScope selectedCategory))

/-!
## Session Tracker and Engagement Recorder (`src/App.tsx` lines 16-19, 80-114,
402-442, 454-512)

The relevant pieces of the `App` component state are collected in `AppState`;
the two `useEffect` bodies and the event handlers become explicit functions on
that state.  `localStorage` access for the key `vinatoon_last_session` is the
`lastSession` field; persistence calls to the Library Store are fire-and-forget
in the source and do not touch component state, so they have no counterpart
here.  In the running application the two effects are executed by React after
every render in which their dependencies changed; traces below apply them at
exactly those points.
-/

/-- `ViewState` from `src/types.ts`. -/
inductive ViewState : Type where
  | GALLERY | DETAIL | READER
deriving DecidableEq, Repr

/-- The persisted session pointer `{comicId, chapterId?}` (`src/App.tsx`
lines 104-107). -/
structure Session : Type where
  comicId : String
  chapterId : Option String

/-- `ResumeData` from `src/App.tsx` lines 16-19. -/
structure ResumeData : Type where
  comic : Comic
  chapter : Option Chapter

/-- The slice of `App` component state that the session and engagement logic
reads and writes. -/
structure AppState : Type where
  view : ViewState
  comics : List Comic
  searchQuery : String
  selectedCategory : String
  selectedComic : Option Comic
  selectedChapter : Option Chapter
  user : Option User
  resumeData : Option ResumeData
  lastSession : Option Session

/-- The session-pointer resolution inside the resume-candidate effect
(`src/App.tsx` lines 83-94): look up the persisted pointer, resolve the comic
id against the snapshot (`comics.find`), then the chapter id against that
comic's chapters; a missing comic yields no candidate, a missing chapter
yields a candidate without a chapter. -/
def resolveSession (comics : List Comic) (lastSession : Option Session) :
    Option ResumeData :=
  match lastSession with
  | none => none
  | some sess =>
    match comics.find? (fun c => c.id == sess.comicId) with
    | none => none
    | some foundComic =>
      let foundChapter :=
        match sess.chapterId with
        | some chid => foundComic.chapters.find? (fun ch => ch.id == chid)
        | none => none
      some ⟨foundComic, foundChapter⟩

/-- The resume-candidate `useEffect` (`src/App.tsx` lines 80-100): only when
the library is non-empty and no comic is open, resolve the persisted pointer
and store any candidate in `resumeData` (a failed resolution leaves the state
unchanged). -/
def resumeCandidateEffect (s : AppState) : AppState :=
  if s.comics.length > 0 && s.selectedComic.isNone then
    match resolveSession s.comics s.lastSession with
    | some rd => { s with resumeData := some rd }
    | none => s
  else s

/-- The session-recording `useEffect` (`src/App.tsx` lines 102-114): whenever
a comic is selected, persist `{comicId, chapterId?}` as the session pointer;
and if the pending resume candidate points at the selected comic, clear the
in-memory candidate. -/
def recordSessionEffect (s : AppState) : AppState :=
  match s.selectedComic with
  | none => s
  | some sc =>
    let s' := { s with lastSession := some ⟨sc.id, s.selectedChapter.map Chapter.id⟩ }
    match s.resumeData with
    | some rd => if rd.comic.id = sc.id then { s' with resumeData := none } else s'
    | none => s'

/-- `handleReadChapter` (`src/App.tsx` lines 402-428) restricted to its comic
computation: increment the matching chapter's `viewCount` (missing read as 0)
and stamp `lastRead` with the chapter id and title, page index 0 and the
current time. -/
def handleReadChapter (selectedComic : Comic) (chapter : Chapter) (now : Int) : Comic :=
  let updatedChapters := selectedComic.chapters.map (fun ch =>
    if ch.id == chapter.id then { ch with viewCount := some (ch.viewCount.getD 0 + 1) } else ch)
  { selectedComic with
    chapters := updatedChapters,
    lastRead := some ⟨chapter.id, chapter.title, 0, now⟩ }

/-- `handleResumeSession` (`src/App.tsx` lines 454-489): bump the comic's view
count, select the comic; with a remembered chapter additionally bump that
chapter's view count, select it, grant 10 exp, and open the reader, else open
the detail view; finally clear the in-memory resume candidate. -/
def handleResumeSession (s : AppState) : AppState :=
  match s.resumeData with
  | none => s
  | some rd =>
    let updatedComic := { rd.comic with viewCount := some (rd.comic.viewCount.getD 0 + 1) }
    let comics1 := s.comics.map (fun (c : Comic) => if c.id == updatedComic.id then updatedComic else c)
    let s1 := { s with comics := comics1, selectedComic := some updatedComic }
    match rd.chapter with
    | some chap =>
      let updatedChapters := updatedComic.chapters.map (fun ch =>
        if ch.id == chap.id then { ch with viewCount := some (ch.viewCount.getD 0 + 1) } else ch)
      let finalComic := { updatedComic with chapters := updatedChapters }
      let comics2 := s1.comics.map (fun (c : Comic) => if c.id == finalComic.id then finalComic else c)
      let s2 := { s1 with comics := comics2, selectedComic := some finalComic }
      let targetChapter := (updatedChapters.find? (fun ch => ch.id == chap.id)).getD chap
      let s3 := { s2 with selectedChapter := some targetChapter }
      let s4 :=
        match s3.user with
        | some u => { s3 with user := some { u with exp := some (u.exp.getD 0 + 10) } }
        | none => s3
      { s4 with view := ViewState.READER, resumeData := none }
    | none => { s1 with view := ViewState.DETAIL, resumeData := none }

/-- `handleDismissResume` (`src/App.tsx` lines 490-493): drop the candidate
and remove the persisted pointer. -/
def handleDismissResume (s : AppState) : AppState :=
  { s with resumeData := none, lastSession := none }

/-- `goBack` (`src/App.tsx` lines 502-512): from the reader return to the
detail view; otherwise return to the gallery, deselecting the comic and
resetting query and category. -/
def goBack (s : AppState) : AppState :=
  match s.view with
  | ViewState.READER => { s with view := ViewState.DETAIL, selectedChapter := none }
  | _ =>
    { s with view := ViewState.GALLERY, selectedComic := none,
             searchQuery := "", selectedCategory := "Tất cả" }

/-- Whether the gallery would show the resume banner (`src/App.tsx` line 643:
`resumeData && !searchQuery` inside the `GALLERY` branch). -/
def offersResume (s : AppState) : Bool :=
  s.view = ViewState.GALLERY && s.resumeData.isSome && s.searchQuery = ""

/-!
## Statement vocabulary: forest equality up to like sets
-/

/-- Set-based comparison of two optional like lists: same members, with an
absent list read as empty (the `likes || []` convention of the source). -/
def likesSetEq (l1 l2 : Option (List String)) : Bool :=
  let a := l1.getD []
  let b := l2.getD []
  a.all (fun x => b.contains x) && b.all (fun x => a.contains x)

mutual
/-- Forest equality up to like-list representation: equal shape, equal fields,
like sets equal at every node. -/
def likeEqForest : List Comment → List Comment → Bool
  | [], [] => true
  | c :: cs, d :: ds => likeEqNode c d && likeEqForest cs ds
  | _, _ => false
termination_by l _ => sizeOf l

/-- Node equality up to like-list representation. -/
def likeEqNode : Comment → Comment → Bool
  | .mk i1 u1 n1 a1 t1 s1 co1 r1 l1 d1, .mk i2 u2 n2 a2 t2 s2 co2 r2 l2 d2 =>
    decide (i1 = i2) && decide (u1 = u2) && decide (n1 = n2) && decide (a1 = a2) &&
    decide (t1 = t2) && decide (s1 = s2) && decide (co1 = co2) &&
    likeEqOpt r1 r2 && likesSetEq l1 l2 && decide (d1 = d2)
termination_by c _ => sizeOf c

/-- `likeEqForest` through optional reply lists (same constructor required). -/
def likeEqOpt : Option (List Comment) → Option (List Comment) → Bool
  | none, none => true
  | some rs1, some rs2 => likeEqForest rs1 rs2
  | _, _ => false
termination_by o _ => sizeOf o
end

/-!
## Lemmas: Rank Engine
-/

lemma rankLevelLoop_le (exp : Int) : ∀ n, rankLevelLoop exp n ≤ n := by
  intro n
  induction n with
  | zero => simp [rankLevelLoop]
  | succ k ih =>
    rw [rankLevelLoop]
    split
    · exact Nat.le_refl _
    · exact Nat.le_succ_of_le ih

lemma rankLevelLoop_unfold (exp : Int) :
    rankLevelLoop exp 9 =
      if 4500 ≤ exp then 9 else if 3600 ≤ exp then 8 else if 2800 ≤ exp then 7
      else if 2100 ≤ exp then 6 else if 1500 ≤ exp then 5 else if 1000 ≤ exp then 4
      else if 600 ≤ exp then 3 else if 300 ≤ exp then 2 else if 100 ≤ exp then 1 else 0 := by
  simp [rankLevelLoop, EXP_THRESHOLDS]

lemma specRankLevel_unfold (exp : Int) :
    specRankLevel exp =
      if 4500 ≤ exp then 9 else if 3600 ≤ exp then 8 else if 2800 ≤ exp then 7
      else if 2100 ≤ exp then 6 else if 1500 ≤ exp then 5 else if 1000 ≤ exp then 4
      else if 600 ≤ exp then 3 else if 300 ≤ exp then 2 else if 100 ≤ exp then 1 else 0 := by
  have hr : List.range EXP_THRESHOLDS.length = [0, 1, 2, 3, 4, 5, 6, 7, 8, 9] := by decide
  rw [specRankLevel, hr]
  simp [EXP_THRESHOLDS]

lemma specRankLevel_max (exp : Int) : specRankLevel (max exp 0) = specRankLevel exp := by
  rcases le_or_lt 0 exp with h | h
  · rw [max_eq_left h]
  · rw [max_eq_right h.le, specRankLevel_unfold 0, specRankLevel_unfold exp]
    norm_num
    split_ifs <;> omega

lemma rankLevelLoop_eq_specRankLevel (exp : Int) :
    rankLevelLoop exp 9 = specRankLevel (max exp 0) := by
  rw [specRankLevel_max, rankLevelLoop_unfold, specRankLevel_unfold]

lemma rankTitles_length (system : RankSystem) (h : system ≠ RankSystem.NONE) :
    (RANK_TITLES system).length = 10 := by
  cases system
  case NONE => exact absurd rfl h
  all_goals simp [RANK_TITLES]

lemma rankTitles_ne_empty (system : RankSystem) (t : String) (ht : t ∈ RANK_TITLES system) :
    t ≠ "" := by
  cases system <;> simp [RANK_TITLES] at ht <;>
    rcases ht with h | h | h | h | h | h | h | h | h | h <;> subst h <;> decide

lemma getUserRank_eq_getElem (exp : Int) (system : RankSystem) (h : system ≠ RankSystem.NONE)
    (hlt : rankLevelLoop exp 9 < (RANK_TITLES system).length) :
    getUserRank exp system = (RANK_TITLES system).get ⟨rankLevelLoop exp 9, hlt⟩ := by
  rw [getUserRank, if_neg h]
  have hg : (RANK_TITLES system).get? (rankLevelLoop exp 9) =
      some ((RANK_TITLES system).get ⟨rankLevelLoop exp 9, hlt⟩) := List.get?_eq_get hlt
  simp only [hg]
  rw [if_neg (rankTitles_ne_empty system _ (List.get_mem _ _ _))]

/-- C5: for every exp, `getUserRank` with system `NONE` returns the empty
string; for every other system it returns `RANK_TITLES[system][i]` where `i`
is the highest index with `exp ≥ EXP_THRESHOLDS[i]` over the fixed 10-entry
threshold table, a negative (or unset, the source default 0) exp being treated
as 0. -/
theorem getUserRank_threshold_spec (exp : Int) (system : RankSystem)
    (h : system ≠ RankSystem.NONE) :
    getUserRank exp RankSystem.NONE = "" ∧
    getUserRank exp system = (RANK_TITLES system).getD (specRankLevel (max exp 0)) "" := by
  have hlt : rankLevelLoop exp 9 < (RANK_TITLES system).length := by
    rw [rankTitles_length system h]
    exact Nat.lt_succ_of_le (rankLevelLoop_le exp 9)
  constructor
  · simp [getUserRank]
  · rw [getUserRank_eq_getElem exp system h hlt, ← rankLevelLoop_eq_specRankLevel,
        List.getD_eq_get?, List.get?_eq_get hlt]
    rfl

/-- Witness for C5 at a concrete negative experience value. -/
theorem getUserRank_threshold_spec_witness :
    RankSystem.GAME ≠ RankSystem.NONE ∧
    (getUserRank (-7) RankSystem.NONE = "" ∧
     getUserRank (-7) RankSystem.GAME =
       (RANK_TITLES RankSystem.GAME).getD (specRankLevel (max (-7) 0)) "") :=
  ⟨by decide, getUserRank_threshold_spec (-7) RankSystem.GAME (by decide)⟩

/-- C10: for every exp (negative included) and every system other than `NONE`,
`getUserRank` returns an entry of that system's 10-title table at an index
between 0 and 9; the defensive synthetic-label branch is unreachable. -/
theorem getUserRank_always_table_entry (exp : Int) (system : RankSystem)
    (h : system ≠ RankSystem.NONE) :
    rankLevelLoop exp 9 ≤ 9 ∧ (RANK_TITLES system).length = 10 ∧
    (RANK_TITLES system).get? (rankLevelLoop exp 9) = some (getUserRank exp system) ∧
    getUserRank exp system ∈ RANK_TITLES system := by
  have hlt : rankLevelLoop exp 9 < (RANK_TITLES system).length := by
    rw [rankTitles_length system h]
    exact Nat.lt_succ_of_le (rankLevelLoop_le exp 9)
  refine ⟨rankLevelLoop_le exp 9, rankTitles_length system h, ?_, ?_⟩
  · rw [getUserRank_eq_getElem exp system h hlt]
    exact List.get?_eq_get hlt
  · rw [getUserRank_eq_getElem exp system h hlt]
    exact List.get_mem _ _ _

/-- Witness for C10 at a concrete experience value past the last threshold. -/
theorem getUserRank_always_table_entry_witness :
    RankSystem.CULTIVATION ≠ RankSystem.NONE ∧
    (rankLevelLoop 5000 9 ≤ 9 ∧ (RANK_TITLES RankSystem.CULTIVATION).length = 10 ∧
     (RANK_TITLES RankSystem.CULTIVATION).get? (rankLevelLoop 5000 9) =
       some (getUserRank 5000 RankSystem.CULTIVATION) ∧
     getUserRank 5000 RankSystem.CULTIVATION ∈ RANK_TITLES RankSystem.CULTIVATION) :=
  ⟨by decide, getUserRank_always_table_entry 5000 RankSystem.CULTIVATION (by decide)⟩

/-!
## Lemmas: Text Normalizer
-/

set_option maxRecDepth 10000 in
lemma nfdTable_entries_ok :
    ∀ p ∈ nfdTable, ∀ d ∈ p.2, isCombiningMark d = true ∨ nfdChar d = [d] := by
  decide

lemma nfd_output_ok (c : Char) : ∀ d ∈ nfdChar c, isCombiningMark d = true ∨ nfdChar d = [d] := by
  intro d hd
  rw [nfdChar] at hd
  cases h : nfdTable.find? (fun p => p.1 == c) with
  | none =>
    rw [h] at hd
    simp at hd
    subst hd
    right
    rw [nfdChar, h]
  | some p =>
    rw [h] at hd
    exact nfdTable_entries_ok p (List.mem_of_find?_eq_some h) d hd

set_option maxRecDepth 10000 in
lemma lowerTable_entries_ok :
    ∀ p ∈ lowerTable, nfdChar p.1 ≠ [p.1] ∨ p.1 = 'Đ' ∨ normalChar p.2 = true := by
  decide

lemma lower_output_normal (c : Char) (h1 : nfdChar c = [c]) (h2 : isCombiningMark c = false)
    (h3 : c ≠ 'đ') (h4 : c ≠ 'Đ') : normalChar (toLowerChar c) = true := by
  cases h : lowerTable.find? (fun p => p.1 == c) with
  | none =>
    have hc : toLowerChar c = c := by rw [toLowerChar, h]
    rw [hc, normalChar, h1, h2]
    simp [h3, h4, hc]
  | some p =>
    have hpc : p.1 = c := by
      have := List.find?_some h
      simpa using this
    have hl : toLowerChar c = p.2 := by rw [toLowerChar, h]
    rcases lowerTable_entries_ok p (List.mem_of_find?_eq_some h) with hbad | hbad | hok
    · rw [hpc] at hbad
      exact absurd h1 hbad
    · rw [hpc] at hbad
      exact absurd hbad h4
    · rw [hl]
      exact hok

lemma removeAccents_chars_normal (s : String) :
    ∀ c ∈ (removeAccents s).data, normalChar c = true := by
  intro c hc
  have hc' : c ∈ (((s.data.flatMap nfdChar).filter
      (fun c => !(isCombiningMark c))).map replaceDChar).map toLowerChar := hc
  simp only [List.mem_map, List.mem_filter, List.mem_flatMap] at hc'
  obtain ⟨b, ⟨a, ⟨⟨x, _, ha⟩, hmark⟩, hb⟩, hl⟩ := hc'
  have hmark' : isCombiningMark a = false := by
    simpa using hmark
  have hnfd : nfdChar a = [a] := by
    rcases nfd_output_ok x a ha with hbad | hok
    · rw [hbad] at hmark'
      cases hmark'
    · exact hok
  by_cases hd1 : a = 'đ'
  · subst hd1
    have hbd : b = 'd' := by
      rw [← hb]
      decide
    subst hbd
    rw [← hl]
    decide
  by_cases hd2 : a = 'Đ'
  · subst hd2
    have hbd : b = 'D' := by
      rw [← hb]
      decide
    subst hbd
    rw [← hl]
    decide
  · have hba : b = a := by
      rw [← hb, replaceDChar, if_neg hd1, if_neg hd2]
    subst hba
    rw [← hl]
    exact lower_output_normal b hnfd hmark' hd1 hd2

lemma pipeline_fixed (l : List Char) (h : ∀ c ∈ l, normalChar c = true) :
    (((l.flatMap nfdChar).filter
      (fun c => !(isCombiningMark c))).map replaceDChar).map toLowerChar = l := by
  induction l with
  | nil => rfl
  | cons x xs ih =>
    have hx := h x (List.mem_cons_self _ _)
    have hxs := ih (fun c hc => h c (List.mem_cons_of_mem _ hc))
    rw [normalChar] at hx
    simp only [Bool.and_eq_true, decide_eq_true_eq, Bool.not_eq_true'] at hx
    obtain ⟨⟨⟨⟨h1, h2⟩, h3⟩, h4⟩, h5⟩ := hx
    have hrepl : replaceDChar x = x := by
      rw [replaceDChar, if_neg h3, if_neg h4]
    simp only [List.flatMap_cons, h1, List.cons_append, List.nil_append,
      List.filter_cons, h2, Bool.not_false, if_true, List.map_cons, hrepl, h5, hxs]

lemma removeAccents_fixed (l : List Char) (h : ∀ c ∈ l, normalChar c = true) :
    removeAccents (String.mk l) = String.mk l :=
  congrArg String.mk (pipeline_fixed l h)

/-- C9: `removeAccents` is idempotent over the modelled character repertoire,
and a diacritic-bearing word and its accent-stripped lower-cased form
normalize to the same string. -/
theorem removeAccents_idempotent :
    (∀ s : String, removeAccents (removeAccents s) = removeAccents s) ∧
    removeAccents "Truyện" = removeAccents "truyen" := by
  constructor
  · intro s
    calc removeAccents (removeAccents s)
        = removeAccents (String.mk (removeAccents s).data) := rfl
      _ = String.mk (removeAccents s).data := removeAccents_fixed _ (removeAccents_chars_normal s)
      _ = removeAccents s := rfl
  · decide

/-!
## Lemmas: Comment Tree Engine
-/


lemma likesSetEq_refl (l : Option (List String)) : likesSetEq l l = true := by
  simp [likesSetEq, List.all_eq_true, List.elem_iff]

mutual
theorem likeEqForest_refl (cs : List Comment) : likeEqForest cs cs = true := by
  match cs with
  | [] => rw [likeEqForest]
  | c :: rest =>
    rw [likeEqForest]
    rw [likeEqNode_refl c, likeEqForest_refl rest]
    rfl
termination_by sizeOf cs

theorem likeEqNode_refl (c : Comment) : likeEqNode c c = true := by
  match c with
  | .mk i u n a t s co r l d =>
    rw [likeEqNode]
    rw [likeEqOpt_refl r, likesSetEq_refl l]
    simp
termination_by sizeOf c

theorem likeEqOpt_refl (o : Option (List Comment)) : likeEqOpt o o = true := by
  match o with
  | none => rw [likeEqOpt]
  | some rs =>
    rw [likeEqOpt]
    exact likeEqForest_refl rs
termination_by sizeOf o
end

lemma contains_filter_ne (L : List String) (uid : String) :
    (L.filter (fun y => y ≠ uid)).contains uid = false := by
  simp [List.elem_iff]

lemma contains_append_self (L : List String) (uid : String) :
    (L ++ [uid]).contains uid = true := by
  simp [List.elem_iff]

lemma likesSetEq_of_mem_iff (L : List String) (l : Option (List String))
    (h : ∀ x, x ∈ L ↔ x ∈ l.getD []) : likesSetEq (some L) l = true := by
  simp only [likesSetEq, Option.getD_some, Bool.and_eq_true, List.all_eq_true, List.elem_iff]
  constructor
  · intro x hx
    exact (h x).1 hx
  · intro x hx
    exact (h x).2 hx

lemma toggleLikeInComments_length (cs : List Comment) (cid uid : String) :
    (toggleLikeInComments cs cid uid).length = cs.length := by
  induction cs with
  | nil => rw [toggleLikeInComments]
  | cons c rest ih =>
    rw [toggleLikeInComments]
    simp [ih]

lemma likes_toggle_twice (likes : Option (List String)) (uid : String) :
    likesSetEq (some (
      let L1 := if (likes.getD []).contains uid
                then (likes.getD []).filter (fun y => y ≠ uid)
                else likes.getD [] ++ [uid]
      if L1.contains uid then L1.filter (fun y => y ≠ uid) else L1 ++ [uid])) likes = true := by
  apply likesSetEq_of_mem_iff
  intro x
  by_cases hc : (likes.getD []).contains uid = true
  · have huid : uid ∈ likes.getD [] := List.elem_iff.mp hc
    rcases eq_or_ne x uid with rfl | hx <;>
      simp_all [contains_filter_ne]
  · have huid : uid ∉ likes.getD [] := fun hm => hc (List.elem_iff.mpr hm)
    rcases eq_or_ne x uid with rfl | hx <;>
      simp_all [contains_append_self]

mutual
theorem toggleLike_twice_forest (cs : List Comment) (cid uid : String) :
    likeEqForest (toggleLikeInComments (toggleLikeInComments cs cid uid) cid uid) cs = true := by
  match cs with
  | [] =>
    rw [toggleLikeInComments, toggleLikeInComments, likeEqForest]
  | c :: rest =>
    rw [toggleLikeInComments, toggleLikeInComments, likeEqForest]
    rw [toggleLike_twice_node c cid uid, toggleLike_twice_forest rest cid uid]
    rfl
termination_by sizeOf cs

theorem toggleLike_twice_node (c : Comment) (cid uid : String) :
    likeEqNode (toggleLikeNode (toggleLikeNode c cid uid) cid uid) c = true := by
  match c with
  | .mk i u n a t s co replies likes d =>
    by_cases hid : i = cid
    · subst hid
      simp only [toggleLikeNode.eq_def, eq_self_iff_true, ite_true, Option.getD_some]
      rw [likeEqNode]
      simp only [likeEqOpt_refl, decide_eq_true_eq, Bool.and_eq_true, and_true, true_and]
      exact likes_toggle_twice likes uid
    · cases replies with
      | none =>
        simp only [toggleLikeNode.eq_def, hid, ite_false]
        exact likeEqNode_refl _
      | some rs =>
        by_cases hlen : rs.length > 0
        · simp only [toggleLikeNode.eq_def, hid, ite_false, hlen, ite_true,
            toggleLikeInComments_length]
          rw [likeEqNode, likeEqOpt]
          rw [toggleLike_twice_forest rs cid uid, likesSetEq_refl]
          simp
        · simp only [toggleLikeNode.eq_def, hid, ite_false, hlen]
          exact likeEqNode_refl _
termination_by sizeOf c
end

/-- C3 (amended): applying `toggleLike` twice with the same `(commentId,
userId)` restores the forest up to the representation of like lists: every
other field and the tree structure are restored exactly, and at every node the
set of liking users (an absent list read as empty) equals the original. -/
theorem toggleLike_twice_restores_up_to_like_sets (forest : List Comment)
    (commentId userId : String) :
    likeEqForest
      (toggleLikeInComments (toggleLikeInComments forest commentId userId) commentId userId)
      forest = true :=
  toggleLike_twice_forest forest commentId userId

/-- C3 counterexample: when the user is already in the target's likes, the
second toggle re-appends the id at the end of the list (`[u, a]` becomes
`[a, u]`), so the forest is not equal to the original. -/
theorem toggleLike_involution_counterexample :
    toggleLikeInComments
      (toggleLikeInComments
        [Comment.mk "c1" "u0" "ann" "av" none none "hello" none (some ["u", "a"]) 5]
        "c1" "u") "c1" "u"
      ≠ [Comment.mk "c1" "u0" "ann" "av" none none "hello" none (some ["u", "a"]) 5] := by
  simp [toggleLikeInComments, toggleLikeNode.eq_def]

lemma countComments_nil : countComments [] = 0 := by
  rw [countComments.eq_def]

lemma countComments_cons (c : Comment) (rest : List Comment) :
    countComments (c :: rest) = countComment c + countComments rest := by
  rw [countComments.eq_def]

lemma countComments_append (xs ys : List Comment) :
    countComments (xs ++ ys) = countComments xs + countComments ys := by
  induction xs with
  | nil =>
    rw [List.nil_append, countComments_nil]
    omega
  | cons c rest ih =>
    rw [List.cons_append, countComments_cons, countComments_cons, ih]
    omega

lemma countRepliesOpt_none : countRepliesOpt none = 0 := by
  rw [countRepliesOpt.eq_def]

lemma countRepliesOpt_some (rs : List Comment) : countRepliesOpt (some rs) = countComments rs := by
  rw [countRepliesOpt.eq_def]

lemma countComment_mk (i u n a : String) (t : Option String) (s : Option RankSystem)
    (co : String) (replies : Option (List Comment)) (likes : Option (List String)) (d : Int) :
    countComment (Comment.mk i u n a t s co replies likes d) = 1 + countRepliesOpt replies := by
  rw [countComment.eq_def]

lemma countRepliesOpt_getD (o : Option (List Comment)) :
    countRepliesOpt o = countComments (o.getD []) := by
  cases o with
  | none =>
    rw [countRepliesOpt_none, Option.getD_none, countComments_nil]
  | some rs =>
    rw [countRepliesOpt_some, Option.getD_some]

lemma countComment_leaf (nc : Comment) (h : nc.replies = some []) : countComment nc = 1 := by
  match nc with
  | .mk i u n a t s co replies likes d =>
    rw [Comment.replies] at h
    subst h
    rw [countComment_mk, countRepliesOpt_some, countComments_nil]

mutual
theorem addReply_notFound_forest (cs : List Comment) (pid : String) (nc : Comment)
    (h : (addReplyRecursively cs pid nc).2 = false) :
    (addReplyRecursively cs pid nc).1 = cs := by
  match cs with
  | [] => rw [addReplyRecursively]
  | c :: rest =>
    rw [addReplyRecursively] at h ⊢
    cases hnode : (addReplyNode c pid nc).2 with
    | false =>
      simp only [hnode, Bool.false_eq_true, if_false] at h ⊢
      rw [addReply_notFound_node c pid nc hnode, addReply_notFound_forest rest pid nc h]
    | true =>
      simp [hnode] at h
termination_by sizeOf cs

theorem addReply_notFound_node (c : Comment) (pid : String) (nc : Comment)
    (h : (addReplyNode c pid nc).2 = false) :
    (addReplyNode c pid nc).1 = c := by
  match c with
  | .mk i u n a t s co replies likes d =>
    by_cases hpid : i = pid
    · simp [addReplyNode.eq_def, hpid] at h
    · cases replies with
      | none => simp [addReplyNode.eq_def, hpid]
      | some rs =>
        by_cases hlen : rs.length > 0
        · simp only [addReplyNode.eq_def, hpid, if_false, hlen, if_true, ite_false,
            ite_true] at h ⊢
          rw [addReply_notFound_forest rs pid nc h]
        · simp [addReplyNode.eq_def, hpid, hlen]
termination_by sizeOf c
end

mutual
theorem addReply_eq_spec_forest (cs : List Comment) (pid : String) (nc : Comment) :
    addReplyRecursively cs pid nc = addReplySpec cs pid nc := by
  match cs with
  | [] =>
    rw [addReplyRecursively, addReplySpec]
  | c :: rest =>
    rw [addReplyRecursively, addReplySpec]
    cases hnode : (addReplyNode c pid nc).2 with
    | true =>
      rw [← addReply_eq_spec_node c pid nc]
      simp [hnode]
    | false =>
      rw [← addReply_eq_spec_node c pid nc]
      simp only [hnode, Bool.false_eq_true, if_false]
      rw [addReply_notFound_node c pid nc hnode, addReply_eq_spec_forest rest pid nc]
termination_by sizeOf cs

theorem addReply_eq_spec_node (c : Comment) (pid : String) (nc : Comment) :
    addReplyNode c pid nc = addReplySpecNode c pid nc := by
  match c with
  | .mk i u n a t s co replies likes d =>
    by_cases hpid : i = pid
    · simp [addReplyNode.eq_def, addReplySpecNode.eq_def, hpid]
    · cases replies with
      | none => simp [addReplyNode.eq_def, addReplySpecNode.eq_def, hpid]
      | some rs =>
        by_cases hlen : rs.length > 0
        · simp only [addReplyNode.eq_def, addReplySpecNode.eq_def, hpid, if_false, hlen,
            if_true, ite_true, ite_false]
          rw [← addReply_eq_spec_forest rs pid nc]
          cases hsnd : (addReplyRecursively rs pid nc).2 with
          | true => simp [hsnd]
          | false =>
            simp only [hsnd, Bool.false_eq_true, if_false]
            rw [addReply_notFound_forest rs pid nc hsnd]
        · have hrs : rs = [] := List.length_eq_zero.mp (by omega)
          subst hrs
          simp only [addReplyNode.eq_def, addReplySpecNode.eq_def, hpid, if_false, hlen,
            ite_false, ite_true]
          rw [addReplySpec]
          simp
termination_by sizeOf c
end

mutual
theorem addReplySpec_found (cs : List Comment) (pid : String) (nc : Comment) :
    (addReplySpec cs pid nc).2 = containsId cs pid := by
  match cs with
  | [] =>
    rw [addReplySpec, containsId]
  | c :: rest =>
    rw [addReplySpec, containsId]
    cases hnode : (addReplySpecNode c pid nc).2 with
    | true =>
      rw [← addReplySpecNode_found c pid nc, hnode]
      simp
    | false =>
      rw [← addReplySpecNode_found c pid nc, hnode]
      simp only [Bool.false_eq_true, if_false, Bool.false_or]
      rw [addReplySpec_found rest pid nc]
termination_by sizeOf cs

theorem addReplySpecNode_found (c : Comment) (pid : String) (nc : Comment) :
    (addReplySpecNode c pid nc).2 = containsIdNode c pid := by
  match c with
  | .mk i u n a t s co replies likes d =>
    by_cases hpid : i = pid
    · simp [addReplySpecNode.eq_def, containsIdNode, hpid]
    · cases replies with
      | none =>
        simp [addReplySpecNode.eq_def, containsIdNode, containsIdOpt, hpid]
      | some rs =>
        simp only [addReplySpecNode.eq_def, containsIdNode, containsIdOpt, hpid, if_false,
          decide_False, Bool.false_or, ite_false]
        rw [← addReplySpec_found rs pid nc]
        cases hsnd : (addReplySpec rs pid nc).2 <;> simp [hsnd]
termination_by sizeOf c
end

mutual
theorem addReplySpec_count (cs : List Comment) (pid : String) (nc : Comment)
    (h : (addReplySpec cs pid nc).2 = true) :
    countComments (addReplySpec cs pid nc).1 = countComments cs + countComment nc := by
  match cs with
  | [] =>
    rw [addReplySpec] at h
    simp at h
  | c :: rest =>
    rw [addReplySpec] at h ⊢
    cases hnode : (addReplySpecNode c pid nc).2 with
    | true =>
      simp only [hnode, if_true, ite_true]
      rw [countComments_cons, countComments_cons,
        addReplySpecNode_count c pid nc hnode]
      omega
    | false =>
      simp only [hnode, Bool.false_eq_true, if_false, ite_false] at h ⊢
      rw [countComments_cons, countComments_cons,
        addReplySpec_count rest pid nc h]
      omega
termination_by sizeOf cs

theorem addReplySpecNode_count (c : Comment) (pid : String) (nc : Comment)
    (h : (addReplySpecNode c pid nc).2 = true) :
    countComment (addReplySpecNode c pid nc).1 = countComment c + countComment nc := by
  match c with
  | .mk i u n a t s co replies likes d =>
    by_cases hpid : i = pid
    · simp only [addReplySpecNode.eq_def, hpid, if_true, ite_true]
      rw [countComment_mk, countComment_mk, countRepliesOpt_some, countComments_append,
        countComments_cons, countComments_nil, countRepliesOpt_getD]
      omega
    · cases replies with
      | none =>
        simp [addReplySpecNode.eq_def, hpid] at h
      | some rs =>
        simp only [addReplySpecNode.eq_def, hpid, if_false, ite_false] at h ⊢
        cases hsnd : (addReplySpec rs pid nc).2 with
        | false => simp [hsnd] at h
        | true =>
          simp only [hsnd, if_true, ite_true]
          rw [countComment_mk, countComment_mk, countRepliesOpt_some, countRepliesOpt_some,
            addReplySpec_count rs pid nc hsnd]
          omega
termination_by sizeOf c
end

/-- C4: on a forest containing a node with the requested parent id,
`addReplyRecursively` reports success, its result is exactly the spec-side
first-pre-order-match insertion (append at the first matching node in
depth-first order, creating the reply list if absent, all sibling order
preserved), and the total node count grows by the size of the inserted
subtree: by exactly one for a fresh leaf comment (`replies: []`, as
`handleAddChapterComment` builds them). -/
theorem addReply_first_preorder_insert (forest : List Comment) (parentId : String)
    (newComment : Comment) (h : containsId forest parentId = true) :
    (addReplyRecursively forest parentId newComment).2 = true ∧
    addReplyRecursively forest parentId newComment = addReplySpec forest parentId newComment ∧
    countComments (addReplyRecursively forest parentId newComment).1
      = countComments forest + countComment newComment ∧
    (newComment.replies = some [] →
      countComments (addReplyRecursively forest parentId newComment).1
        = countComments forest + 1) := by
  have hfound : (addReplySpec forest parentId newComment).2 = true := by
    rw [addReplySpec_found]
    exact h
  have heq := addReply_eq_spec_forest forest parentId newComment
  have hcount := addReplySpec_count forest parentId newComment hfound
  refine ⟨by rw [heq]; exact hfound, heq, by rw [heq]; exact hcount, ?_⟩
  intro hleaf
  rw [heq, hcount, countComment_leaf newComment hleaf]

/-- Witness for C4 on a two-node forest, replying to the nested node. -/
theorem addReply_first_preorder_insert_witness :
    containsId
      [Comment.mk "top" "u1" "ann" "" none none "root"
        (some [Comment.mk "p" "u2" "bob" "" none none "child" none none 1]) none 0]
      "p" = true ∧
    ((addReplyRecursively
        [Comment.mk "top" "u1" "ann" "" none none "root"
          (some [Comment.mk "p" "u2" "bob" "" none none "child" none none 1]) none 0]
        "p" (Comment.mk "r" "u3" "eve" "" none none "reply" (some []) (some []) 2)).2 = true ∧
     addReplyRecursively
        [Comment.mk "top" "u1" "ann" "" none none "root"
          (some [Comment.mk "p" "u2" "bob" "" none none "child" none none 1]) none 0]
        "p" (Comment.mk "r" "u3" "eve" "" none none "reply" (some []) (some []) 2)
       = addReplySpec
        [Comment.mk "top" "u1" "ann" "" none none "root"
          (some [Comment.mk "p" "u2" "bob" "" none none "child" none none 1]) none 0]
        "p" (Comment.mk "r" "u3" "eve" "" none none "reply" (some []) (some []) 2) ∧
     countComments (addReplyRecursively
        [Comment.mk "top" "u1" "ann" "" none none "root"
          (some [Comment.mk "p" "u2" "bob" "" none none "child" none none 1]) none 0]
        "p" (Comment.mk "r" "u3" "eve" "" none none "reply" (some []) (some []) 2)).1
       = countComments
        [Comment.mk "top" "u1" "ann" "" none none "root"
          (some [Comment.mk "p" "u2" "bob" "" none none "child" none none 1]) none 0]
         + countComment (Comment.mk "r" "u3" "eve" "" none none "reply" (some []) (some []) 2) ∧
     ((Comment.mk "r" "u3" "eve" "" none none "reply" (some []) (some []) 2).replies = some [] →
      countComments (addReplyRecursively
        [Comment.mk "top" "u1" "ann" "" none none "root"
          (some [Comment.mk "p" "u2" "bob" "" none none "child" none none 1]) none 0]
        "p" (Comment.mk "r" "u3" "eve" "" none none "reply" (some []) (some []) 2)).1
        = countComments
        [Comment.mk "top" "u1" "ann" "" none none "root"
          (some [Comment.mk "p" "u2" "bob" "" none none "child" none none 1]) none 0]
          + 1)) :=
  ⟨by simp [containsId, containsIdNode, containsIdOpt],
   addReply_first_preorder_insert _ _ _ (by simp [containsId, containsIdNode, containsIdOpt])⟩

/-- C1: evaluation of the code at the failing input.  With the forest
`[{id: "p", replies: absent}]` and `parentId = "p"`, the comment array the
caller held before `handleAddChapterComment` is observed mutated after the
call: the shallow copy `[...comments]` shares the node object, and
`addReplyRecursively` pushes the new reply into that shared node's `replies`
in place, so the caller's forest value is no longer the value it held before
the call. -/
theorem addReply_mutates_caller_forest :
    callerCommentsAfterAdd [Comment.mk "p" "pu" "ann" "" none none "root" none none 0]
        (some "p") (Comment.mk "r" "ru" "bob" "" none none "reply" (some []) (some []) 1)
      ≠ [Comment.mk "p" "pu" "ann" "" none none "root" none none 0] := by
  simp [callerCommentsAfterAdd, addReplyRecursively, addReplyNode.eq_def]

/-!
## Lemmas: View Composer
-/

lemma insertSorted_perm (cmp : Comic → Comic → Int) (x : Comic) (l : List Comic) :
    (insertSorted cmp x l).Perm (x :: l) := by
  induction l with
  | nil => exact List.Perm.refl _
  | cons y ys ih =>
    rw [insertSorted]
    split
    · exact List.Perm.refl _
    · exact (List.Perm.cons y ih).trans (List.Perm.swap x y ys)

lemma stableSort_perm (cmp : Comic → Comic → Int) (l : List Comic) :
    (stableSort cmp l).Perm l := by
  induction l with
  | nil => exact List.Perm.refl _
  | cons x xs ih =>
    rw [stableSort]
    exact (insertSorted_perm cmp x (stableSort cmp xs)).trans (List.Perm.cons x ih)

lemma insertSorted_pairwise (cmp : Comic → Comic → Int)
    (htot : ∀ a b, cmp a b ≤ 0 ∨ cmp b a ≤ 0)
    (htrans : ∀ a b c, cmp a b ≤ 0 → cmp b c ≤ 0 → cmp a c ≤ 0)
    (x : Comic) (l : List Comic) (hl : l.Pairwise (fun a b => cmp a b ≤ 0)) :
    (insertSorted cmp x l).Pairwise (fun a b => cmp a b ≤ 0) := by
  induction l with
  | nil => simp [insertSorted]
  | cons y ys ih =>
    rw [insertSorted]
    rw [List.pairwise_cons] at hl
    split
    · rename_i hxy
      rw [List.pairwise_cons]
      refine ⟨?_, List.pairwise_cons.mpr hl⟩
      intro b hb
      rcases List.mem_cons.mp hb with rfl | hbys
      · exact hxy
      · exact htrans x y b hxy (hl.1 b hbys)
    · rename_i hxy
      rw [List.pairwise_cons]
      refine ⟨?_, ih hl.2⟩
      intro b hb
      rcases List.mem_cons.mp ((insertSorted_perm cmp x ys).mem_iff.mp hb) with rfl | hbys
      · rcases htot b y with h1 | h1
        · exact absurd h1 hxy
        · exact h1
      · exact hl.1 b hbys

lemma stableSort_pairwise (cmp : Comic → Comic → Int)
    (htot : ∀ a b, cmp a b ≤ 0 ∨ cmp b a ≤ 0)
    (htrans : ∀ a b c, cmp a b ≤ 0 → cmp b c ≤ 0 → cmp a c ≤ 0)
    (l : List Comic) : (stableSort cmp l).Pairwise (fun a b => cmp a b ≤ 0) := by
  induction l with
  | nil => simp [stableSort]
  | cons x xs ih =>
    rw [stableSort]
    exact insertSorted_pairwise cmp htot htrans x _ ih

lemma comicComparator_history (sortOption : SortOption)
    (localeCompare : String → String → Int) (a b : Comic) :
    comicComparator "Lịch sử" sortOption localeCompare a b = tsOf b - tsOf a := by
  rw [comicComparator, if_pos rfl]

/-- C8: with the History category active, the composed view is a permutation
of the filtered comics ordered by effective `lastRead` timestamp descending
(comics without a read marker count as timestamp 0 and so sort last), and the
result does not depend on the active sort option (nor on the locale
comparison). -/
theorem filteredComics_history_sorted (comics : List Comic) (searchQuery : String)
    (searchScope : SearchScope) (sortOption : SortOption) (user : Option User)
    (localeCompare : String → String → Int) :
    (filteredComics comics searchQuery searchScope "Lịch sử" sortOption user
        localeCompare).Perm
      (comics.filter (matchesFilter user searchQuery searchScope "Lịch sử")) ∧
    (filteredComics comics searchQuery searchScope "Lịch sử" sortOption user
        localeCompare).Pairwise (fun a b => tsOf b ≤ tsOf a) ∧
    ∀ (sortOption' : SortOption) (localeCompare' : String → String → Int),
      filteredComics comics searchQuery searchScope "Lịch sử" sortOption user localeCompare
        = filteredComics comics searchQuery searchScope "Lịch sử" sortOption' user
            localeCompare' := by
  have hcmp : ∀ (so : SortOption) (lc : String → String → Int),
      comicComparator "Lịch sử" so lc = fun a b => tsOf b - tsOf a := by
    intro so lc
    funext a b
    exact comicComparator_history so lc a b
  refine ⟨?_, ?_, ?_⟩
  · rw [filteredComics]
    exact stableSort_perm _ _
  · rw [filteredComics, hcmp]
    have := stableSort_pairwise (fun a b => tsOf b - tsOf a)
      (fun a b => by dsimp only; omega) (fun a b c => by dsimp only; omega)
      (comics.filter (matchesFilter user searchQuery searchScope "Lịch sử"))
    exact this.imp (fun h => by omega)
  · intro so' lc'
    rw [filteredComics, filteredComics, hcmp, hcmp]

/-!
## Lemmas: Session Tracker and Engagement Recorder
-/

/-- C6: reading a chapter on a comic whose own `viewCount` is absent and whose
target chapter's `viewCount` is absent leaves the comic-level counter absent,
gives the target chapter `viewCount = 1` while every other chapter is
unchanged, and stamps `lastRead` with the chapter's id and title, page index 0
and the supplied clock value. -/
theorem readChapter_first_view (comic : Comic) (chapter : Chapter) (now : Int)
    (hc : comic.viewCount = none)
    (hch : ∀ ch ∈ comic.chapters, ch.id = chapter.id → ch.viewCount = none) :
    (handleReadChapter comic chapter now).viewCount = none ∧
    (handleReadChapter comic chapter now).lastRead
      = some ⟨chapter.id, chapter.title, 0, now⟩ ∧
    (handleReadChapter comic chapter now).chapters
      = comic.chapters.map (fun ch =>
          if ch.id == chapter.id then { ch with viewCount := some 1 } else ch) := by
  refine ⟨by rw [handleReadChapter]; exact hc, by rw [handleReadChapter], ?_⟩
  rw [handleReadChapter]
  apply List.map_congr_left
  intro ch hm
  by_cases hid : ch.id == chapter.id
  · rw [if_pos hid, if_pos hid, hch ch hm (by simpa using hid)]
    rfl
  · rw [if_neg hid, if_neg hid]

/-- Witness for C6: a one-chapter comic with both counters absent. -/
theorem readChapter_first_view_witness :
    (Comic.mk "c1" "T" "A" "" [] ""
        [Chapter.mk "ch1" "Chap 1" [] [] none 5] [] [] ComicStatus.ONGOING none none 1 2
      ).viewCount = none ∧
    (∀ ch ∈ (Comic.mk "c1" "T" "A" "" [] ""
        [Chapter.mk "ch1" "Chap 1" [] [] none 5] [] [] ComicStatus.ONGOING none none 1 2
      ).chapters, ch.id = (Chapter.mk "ch1" "Chap 1" [] [] none 5).id → ch.viewCount = none) ∧
    ((handleReadChapter
        (Comic.mk "c1" "T" "A" "" [] ""
          [Chapter.mk "ch1" "Chap 1" [] [] none 5] [] [] ComicStatus.ONGOING none none 1 2)
        (Chapter.mk "ch1" "Chap 1" [] [] none 5) 99).viewCount = none ∧
     (handleReadChapter
        (Comic.mk "c1" "T" "A" "" [] ""
          [Chapter.mk "ch1" "Chap 1" [] [] none 5] [] [] ComicStatus.ONGOING none none 1 2)
        (Chapter.mk "ch1" "Chap 1" [] [] none 5) 99).lastRead
       = some ⟨"ch1", "Chap 1", 0, 99⟩ ∧
     (handleReadChapter
        (Comic.mk "c1" "T" "A" "" [] ""
          [Chapter.mk "ch1" "Chap 1" [] [] none 5] [] [] ComicStatus.ONGOING none none 1 2)
        (Chapter.mk "ch1" "Chap 1" [] [] none 5) 99).chapters
       = (Comic.mk "c1" "T" "A" "" [] ""
          [Chapter.mk "ch1" "Chap 1" [] [] none 5] [] [] ComicStatus.ONGOING none none 1 2
         ).chapters.map (fun ch =>
           if ch.id == (Chapter.mk "ch1" "Chap 1" [] [] none 5).id
           then { ch with viewCount := some 1 } else ch)) :=
  ⟨rfl, by intro ch hm _; simp at hm; rw [hm],
   readChapter_first_view _ _ 99 rfl (by intro ch hm _; simp at hm; rw [hm])⟩

/-- C7: session resolution degrades gracefully: a pointer whose comic is
absent from the snapshot yields no candidate at all, and a pointer whose comic
exists but whose chapter is gone yields a candidate for that comic with no
chapter. -/
theorem resolveSession_graceful (comics : List Comic) (sess : Session) :
    ((∀ c ∈ comics, c.id ≠ sess.comicId) →
      resolveSession comics (some sess) = none) ∧
    (∀ comic, comics.find? (fun c => c.id == sess.comicId) = some comic →
      (∀ ch ∈ comic.chapters, some ch.id ≠ sess.chapterId) →
      resolveSession comics (some sess) = some ⟨comic, none⟩) := by
  constructor
  · intro habs
    rw [resolveSession]
    have : comics.find? (fun c => c.id == sess.comicId) = none := by
      rw [List.find?_eq_none]
      intro c hc
      simpa using habs c hc
    rw [this]
  · intro comic hfind hch
    rw [resolveSession, hfind]
    dsimp only
    cases hcid : sess.chapterId with
    | none => rfl
    | some chid =>
      have hnone : comic.chapters.find? (fun ch => ch.id == chid) = none := by
        rw [List.find?_eq_none]
        intro ch hm
        have := hch ch hm
        rw [hcid] at this
        simpa using fun h => this (by rw [h])
      dsimp only
      rw [hnone]

/-- Witness for C7: a one-comic snapshot; a stale comic pointer resolves to
nothing, and a pointer at comic `c1` with a removed chapter `ch2` resolves to
a candidate for `c1` without a chapter. -/
theorem resolveSession_graceful_witness :
    resolveSession
      [Comic.mk "c1" "T" "A" "" [] "" [Chapter.mk "ch1" "K" [] [] none 0] [] []
        ComicStatus.ONGOING none none 1 2] (some ⟨"gone", none⟩) = none ∧
    resolveSession
      [Comic.mk "c1" "T" "A" "" [] "" [Chapter.mk "ch1" "K" [] [] none 0] [] []
        ComicStatus.ONGOING none none 1 2] (some ⟨"c1", some "ch2"⟩)
      = some ⟨Comic.mk "c1" "T" "A" "" [] "" [Chapter.mk "ch1" "K" [] [] none 0] [] []
          ComicStatus.ONGOING none none 1 2, none⟩ :=
  ⟨(resolveSession_graceful _ ⟨"gone", none⟩).1 (by
      intro c hc
      rw [List.mem_singleton.mp hc]
      decide),
   (resolveSession_graceful _ ⟨"c1", some "ch2"⟩).2 _ rfl (by
      intro ch hm
      rw [List.mem_singleton.mp hm]
      decide)⟩

/-- C2 counterexample: resolving the persisted pointer, consuming the resume
candidate via the resume action, letting the session-recording effect run (it
re-persists the very pointer that was just consumed), and returning to the
gallery re-creates a resume candidate for the same comic, with no new reading
activity and no dismissal in between — the gallery offers the banner again. -/
theorem resume_reoffered_after_gallery_return :
    ((resumeCandidateEffect (goBack (recordSessionEffect (handleResumeSession
        (resumeCandidateEffect
          { view := ViewState.GALLERY,
            comics := [Comic.mk "c1" "T" "A" "" [] "" [] [] [] ComicStatus.ONGOING none none 1 2],
            searchQuery := "",
            selectedCategory := "Tất cả",
            selectedComic := none,
            selectedChapter := none,
            user := none,
            resumeData := none,
            lastSession := some ⟨"c1", none⟩ }))))).resumeData).map (fun rd => rd.comic.id)
      = some "c1" ∧
    offersResume (resumeCandidateEffect (goBack (recordSessionEffect (handleResumeSession
        (resumeCandidateEffect
          { view := ViewState.GALLERY,
            comics := [Comic.mk "c1" "T" "A" "" [] "" [] [] [] ComicStatus.ONGOING none none 1 2],
            searchQuery := "",
            selectedCategory := "Tất cả",
            selectedComic := none,
            selectedChapter := none,
            user := none,
            resumeData := none,
            lastSession := some ⟨"c1", none⟩ }))))) = true := by
  constructor
  · rfl
  · rfl

/-- C2 (amended): consuming a resume candidate clears only the in-memory
candidate.  When the pointed comic is the open selection, the
session-recording effect clears `resumeData` but re-persists the session
pointer for that very comic; and whenever no comic is open, the library is
non-empty and the persisted pointer still resolves, the resume-candidate
effect re-creates the candidate.  Hence returning to the gallery after
consuming the resume re-offers it; the pointer is only removed by an explicit
dismiss or deletion of the pointed comic. -/
theorem resume_candidate_consumed_in_memory_only (s s' : AppState) (sc : Comic)
    (rd rd' : ResumeData) (hsel : s.selectedComic = some sc) (hrd : s.resumeData = some rd)
    (hid : rd.comic.id = sc.id) (hsel' : s'.selectedComic = none)
    (hne : s'.comics.length > 0) (hres : resolveSession s'.comics s'.lastSession = some rd') :
    (recordSessionEffect s).resumeData = none ∧
    (recordSessionEffect s).lastSession = some ⟨sc.id, s.selectedChapter.map Chapter.id⟩ ∧
    (resumeCandidateEffect s').resumeData = some rd' := by
  refine ⟨?_, ?_, ?_⟩
  · rw [recordSessionEffect, hsel]
    dsimp only
    rw [hrd]
    dsimp only
    rw [if_pos hid]
  · rw [recordSessionEffect, hsel]
    dsimp only
    rw [hrd]
    dsimp only
    rw [if_pos hid]
  · rw [resumeCandidateEffect]
    rw [if_pos (by rw [hsel']; simp [hne])]
    rw [hres]

/-- Witness for C2's amended statement: a state with the pointed comic open
and a gallery state whose pointer still resolves. -/
theorem resume_candidate_consumed_in_memory_only_witness :
    (recordSessionEffect
      { view := ViewState.DETAIL,
        comics := [Comic.mk "c1" "T" "A" "" [] "" [] [] [] ComicStatus.ONGOING none none 1 2],
        searchQuery := "",
        selectedCategory := "Tất cả",
        selectedComic :=
          some (Comic.mk "c1" "T" "A" "" [] "" [] [] [] ComicStatus.ONGOING none none 1 2),
        selectedChapter := none,
        user := none,
        resumeData := some ⟨Comic.mk "c1" "T" "A" "" [] "" [] [] []
          ComicStatus.ONGOING none none 1 2, none⟩,
        lastSession := none }).resumeData = none ∧
    (recordSessionEffect
      { view := ViewState.DETAIL,
        comics := [Comic.mk "c1" "T" "A" "" [] "" [] [] [] ComicStatus.ONGOING none none 1 2],
        searchQuery := "",
        selectedCategory := "Tất cả",
        selectedComic :=
          some (Comic.mk "c1" "T" "A" "" [] "" [] [] [] ComicStatus.ONGOING none none 1 2),
        selectedChapter := none,
        user := none,
        resumeData := some ⟨Comic.mk "c1" "T" "A" "" [] "" [] [] []
          ComicStatus.ONGOING none none 1 2, none⟩,
        lastSession := none }).lastSession = some ⟨"c1", none⟩ ∧
    (resumeCandidateEffect
      { view := ViewState.GALLERY,
        comics := [Comic.mk "c1" "T" "A" "" [] "" [] [] [] ComicStatus.ONGOING none none 1 2],
        searchQuery := "",
        selectedCategory := "Tất cả",
        selectedComic := none,
        selectedChapter := none,
        user := none,
        resumeData := none,
        lastSession := some ⟨"c1", none⟩ }).resumeData
      = some ⟨Comic.mk "c1" "T" "A" "" [] "" [] [] [] ComicStatus.ONGOING none none 1 2,
          none⟩ :=
  resume_candidate_consumed_in_memory_only
    { view := ViewState.DETAIL,
      comics := [Comic.mk "c1" "T" "A" "" [] "" [] [] [] ComicStatus.ONGOING none none 1 2],
      searchQuery := "",
      selectedCategory := "Tất cả",
      selectedComic :=
        some (Comic.mk "c1" "T" "A" "" [] "" [] [] [] ComicStatus.ONGOING none none 1 2),
      selectedChapter := none,
      user := none,
      resumeData := some ⟨Comic.mk "c1" "T" "A" "" [] "" [] [] []
        ComicStatus.ONGOING none none 1 2, none⟩,
      lastSession := none }
    { view := ViewState.GALLERY,
      comics := [Comic.mk "c1" "T" "A" "" [] "" [] [] [] ComicStatus.ONGOING none none 1 2],
      searchQuery := "",
      selectedCategory := "Tất cả",
      selectedComic := none,
      selectedChapter := none,
      user := none,
      resumeData := none,
      lastSession := some ⟨"c1", none⟩ }
    (Comic.mk "c1" "T" "A" "" [] "" [] [] [] ComicStatus.ONGOING none none 1 2)
    ⟨Comic.mk "c1" "T" "A" "" [] "" [] [] [] ComicStatus.ONGOING none none 1 2, none⟩
    ⟨Comic.mk "c1" "T" "A" "" [] "" [] [] [] ComicStatus.ONGOING none none 1 2, none⟩
    rfl rfl rfl rfl (by decide) rfl
